import Mathlib

/-!
Verification of the connection resolution and filtering pipeline of
`abc_graphene_sqlalchemy/fields.py` (graphene-sqlalchemy binding layer).

The Python source is shallowly embedded: Python dict-shaped filter inputs
become association lists, SQLAlchemy clause objects become an explicit
predicate syntax tree with a Boolean row semantics, Python exceptions become
`Except` errors, and the lazy `lambda` clauses returned by
`create_filter_clause` become an explicit `ClauseResult` distinguishing a
callable clause from the empty tuple `()` the source returns for an
unrecognized operator tag.
-/

/-- Scalar (non-mapping) Python values that can appear in filter inputs and
in entity rows.  `uuid` models `uuid.UUID`, `pyNone` models `None`, and
`floatV` models a float (only its identity matters here, never its
arithmetic). -/
inductive Scalar where
  | str (s : String)
  | int (n : Int)
  | bool (b : Bool)
  | uuid (u : Nat)
  | floatV (id : Nat)
  | pyNone
  | list (vs : List Scalar)

/-- A filter value as received on the wire: either a Python mapping
(association list, in insertion order, mirroring a Python `dict`) or a bare
scalar. -/
inductive FVal where
  | dict (pairs : List (String × FVal))
  | scalar (v : Scalar)

/-- An entity row: column name to scalar value, in insertion order. -/
abbrev Record := List (String × Scalar)

/-- Structural equality of scalars, mirroring Python `==` on these values. -/
def scalarEq : Scalar → Scalar → Bool
  | .str a, .str b => a == b
  | .int a, .int b => a == b
  | .bool a, .bool b => a == b
  | .uuid a, .uuid b => a == b
  | .floatV a, .floatV b => a == b
  | .pyNone, .pyNone => true
  | .list as, .list bs => scalarListEq as bs
  | _, _ => false
where
  scalarListEq : List Scalar → List Scalar → Bool
  | [], [] => true
  | a :: as, b :: bs => scalarEq a b && scalarListEq as bs
  | _, _ => false

/-- Numeric view of a scalar for ordered comparisons; Python booleans are
integers (`True == 1`, `False == 0`). -/
def scalarToInt : Scalar → Option Int
  | .int n => some n
  | .bool b => some (if b then 1 else 0)
  | _ => none

/-- Ordered comparison used for `lessThan`/`greaterThan`: numeric when both
sides are numeric, lexicographic for strings, otherwise no match (the store
comparison semantics for mixed types are not exercised by the source). -/
def scalarLt (a b : Scalar) : Bool :=
  match scalarToInt a, scalarToInt b with
  | some x, some y => decide (x < y)
  | _, _ =>
    match a, b with
    | .str x, .str y => decide (x < y)
    | _, _ => false

/-- Lower-case a string character-wise (`func.lower`). -/
def lowerStr (s : String) : String := String.mk (s.data.map Char.toLower)

/-- Does `hay` start with `needle`? -/
def startsWithSeq : List Char → List Char → Bool
  | _, [] => true
  | [], _ :: _ => false
  | a :: as, b :: bs => a == b && startsWithSeq as bs

/-- Does `hay` contain `needle` as a contiguous subsequence?  Models SQL
`LIKE` with a `%…%` pattern. -/
def containsSeq (needle : List Char) : List Char → Bool
  | [] => startsWithSeq [] needle
  | hay@(_ :: as) => startsWithSeq hay needle || containsSeq needle as

/-- Case-insensitive substring match:
`func.lower(col).like(func.lower(f"%{value}%"))`. -/
def likeCI (hay val : String) : Bool :=
  containsSeq (lowerStr val).data (lowerStr hay).data

/-- Value of a column in a row; a column that is absent reads as SQL NULL
(`pyNone`). -/
def recGet (row : Record) (f : String) : Scalar :=
  ((row.find? (fun kv => kv.fst == f)).map Prod.snd).getD Scalar.pyNone

/-- The comparison operator tags recognized by `create_filter_clause`. -/
inductive CmpOp where
  | eqOp | neOp | ltOp | gtOp | likeOp | inOp
deriving DecidableEq

/-- SQLAlchemy boolean clause expressions, as built by the source:
`trueAll` is the empty `and_()`, `falseAny` the empty `or_()`, `conj2`/`disj2`
are the two-argument `and_(a, b)` / `or_(a, b)` calls, `group` is
`.self_group()`, `cmp` a column/value comparison, and `eqRecord` the
correlated `column == <related row>` comparison built (and immediately
discarded) by the filtered connection field. -/
inductive Clause where
  | trueAll
  | falseAny
  | conj2 (p q : Clause)
  | disj2 (p q : Clause)
  | group (p : Clause)
  | cmp (op : CmpOp) (field : String) (v : FVal)
  | eqRecord (field : String) (r : Record)

/-- Python exceptions raised by the embedded code. -/
inductive PyError where
  | valueError (msg : String)
  | typeError (msg : String)
  | notImplementedError (field valueType modelName : String)
  | noResultFound
  | multipleResultsFound
  | exceptionSet (keys : List String)

/-- What `create_filter_clause` returns: a callable `lambda` producing a
clause, or the initial `clause = ()` (an empty tuple, not callable), which is
what an unrecognized operator tag leaves behind. -/
inductive ClauseResult where
  | callable (p : Clause)
  | emptyTuple

/-- An entity (declarative model): its name and its column/relationship
attribute names. -/
structure Model where
  name : String
  attrs : List String

/-- Python type name of a filter value, as it appears in the
`NotImplementedError` message. -/
def pyTypeName : FVal → String
  | .dict _ => "dict"
  | .scalar (.str _) => "str"
  | .scalar (.int _) => "int"
  | .scalar (.bool _) => "bool"
  | .scalar (.uuid _) => "UUID"
  | .scalar (.floatV _) => "float"
  | .scalar .pyNone => "NoneType"
  | .scalar (.list _) => "list"

/-- `fields.create_filter_clause(model, field, value)`.

For a mapping value the source destructures `[(operator, value)] =
value.items()` — a `ValueError` unless the mapping holds exactly one pair —
then dispatches on the operator tag, leaving `clause = ()` for an
unrecognized tag.  For a bare scalar the source checks
`isinstance(value, (str, int, UUID))`; Python booleans are instances of
`int`, so they pass this check.  Any other bare value raises
`NotImplementedError` naming the field, the value's type and the model. -/
def create_filter_clause (model : Model) (field : String) (value : FVal) :
    Except PyError ClauseResult :=
  match value with
  | .dict pairs =>
    match pairs with
    | [(operator, v)] =>
      if operator = "equal" then .ok (.callable (.cmp .eqOp field v))
      else if operator = "notEqual" then .ok (.callable (.cmp .neOp field v))
      else if operator = "lessThan" then .ok (.callable (.cmp .ltOp field v))
      else if operator = "greaterThan" then .ok (.callable (.cmp .gtOp field v))
      else if operator = "like" then .ok (.callable (.cmp .likeOp field v))
      else if operator = "in" then .ok (.callable (.cmp .inOp field v))
      else .ok .emptyTuple
    | [] => .error (.valueError "not enough values to unpack (expected 1, got 0)")
    | _ => .error (.valueError "too many values to unpack (expected 1)")
  | .scalar s =>
    match s with
    | .str _ | .int _ | .bool _ | .uuid _ =>
      .ok (.callable (.cmp .eqOp field value))
    | _ => .error (.notImplementedError field (pyTypeName value) model.name)

/-- The two boolean combinators `and_` / `or_` passed around by
`where_clause` as its `operator` argument. -/
inductive Combinator where
  | andC | orC
deriving DecidableEq

/-- `operator()` with no arguments: the empty conjunction / disjunction. -/
def opEmpty : Combinator → Clause
  | .andC => .trueAll
  | .orC => .falseAny

/-- `operator(clauses, x)`: the two-argument `and_` / `or_` call. -/
def applyOp : Combinator → Clause → Clause → Clause
  | .andC, a, b => .conj2 a b
  | .orC, a, b => .disj2 a b

/-- The loop body of `fields.where_clause`, folding the filter items into
`clauses` (initially `operator()`).  A key `or`/`and` whose value is a
mapping recurses with the corresponding combinator (the recursive result is
self-grouped, as `where_clause` ends with `.self_group()`); any other item
goes through `create_filter_clause`, whose result is immediately called —
calling the empty tuple left by an unrecognized operator raises a
`TypeError`. -/
def whereFold (model : Model) (operator : Combinator) (clauses : Clause) :
    List (String × FVal) → Except PyError Clause
  | [] => .ok clauses
  | (filter_name, filter_value) :: rest =>
    match filter_value with
    | .dict pairs =>
      if filter_name = "or" then
        match whereFold model .orC (opEmpty .orC) pairs with
        | .ok sub =>
          whereFold model operator (applyOp operator clauses (Clause.group sub)) rest
        | .error e => .error e
      else if filter_name = "and" then
        match whereFold model .andC (opEmpty .andC) pairs with
        | .ok sub =>
          whereFold model operator (applyOp operator clauses (Clause.group sub)) rest
        | .error e => .error e
      else
        match create_filter_clause model filter_name (.dict pairs) with
        | .ok (.callable p) =>
          whereFold model operator (applyOp operator clauses p) rest
        | .ok .emptyTuple => .error (.typeError "tuple object is not callable")
        | .error e => .error e
    | _ =>
      match create_filter_clause model filter_name filter_value with
      | .ok (.callable p) =>
        whereFold model operator (applyOp operator clauses p) rest
      | .ok .emptyTuple => .error (.typeError "tuple object is not callable")
      | .error e => .error e
termination_by l => sizeOf l
decreasing_by all_goals (simp_wf <;> omega)

/-- `fields.where_clause(model, filter, operator=and_)`: fold the items and
self-group the result. -/
def where_clause (model : Model) (filter : List (String × FVal))
    (operator : Combinator) : Except PyError Clause :=
  match whereFold model operator (opEmpty operator) filter with
  | .ok p => .ok (Clause.group p)
  | .error e => .error e

/-- Row semantics of one comparison between a column value and a filter
value.  Comparisons against a mapping value and `in` applied to a non-list
never match (they are outside the wire shape; the store would reject them). -/
def evalCmp (op : CmpOp) (x : Scalar) (v : FVal) : Bool :=
  match op, v with
  | .eqOp, .scalar s => scalarEq x s
  | .neOp, .scalar s => !scalarEq x s
  | .ltOp, .scalar s => scalarLt x s
  | .gtOp, .scalar s => scalarLt s x
  | .likeOp, .scalar (.str vs) =>
    (match x with
     | .str hs => likeCI hs vs
     | _ => false)
  | .inOp, .scalar (.list vs) => vs.any (fun s => scalarEq x s)
  | _, _ => false

/-- Row semantics of a compiled predicate: which rows it matches. -/
def evalClause (p : Clause) (row : Record) : Bool :=
  match p with
  | .trueAll => true
  | .falseAny => false
  | .conj2 a b => evalClause a row && evalClause b row
  | .disj2 a b => evalClause a row || evalClause b row
  | .group q => evalClause q row
  | .cmp op f v => evalCmp op (recGet row f) v
  | .eqRecord _ _ => false

/-- Did the compiled filter match the row?  (Errors compile to no match.) -/
def filterCompiledMatches (model : Model) (filter : List (String × FVal))
    (operator : Combinator) (row : Record) : Bool :=
  match where_clause model filter operator with
  | .ok p => evalClause p row
  | .error _ => false

/-- A query against an entity: the base rows the session supplies, the ORDER
BY column specs applied so far (in application order), and the filter
predicates AND-ed on by successive `.filter` calls.  Row ordering under
`orderBySpecs` is delegated to the store and not modelled; no claim depends
on it. -/
structure QueryT where
  rows : List Record
  orderBySpecs : List String
  filterPreds : List Clause

/-- The per-request context: for each entity name, the rows its session
returns. -/
structure Context where
  sessionRows : List (String × List Record)

/-- Rows the session returns for an entity. -/
def ctxRows (ctx : Context) (model : Model) : List Record :=
  ((ctx.sessionRows.find? (fun kv => kv.fst == model.name)).map Prod.snd).getD []

/-- Modelled from the spec: `utils.get_query` — the session-provider
collaborator (spec §6, §4.2; `abc_graphene_sqlalchemy/utils.py` is not under
`src/`).  It obtains the base query for the entity from the caller-supplied
context, with no ordering and no filters applied yet. -/
def utils.get_query (model : Model) (ctx : Context) : QueryT :=
  { rows := ctxRows ctx model, orderBySpecs := [], filterPreds := [] }

/-- `Query.order_by(*cols)`: append the column specs. -/
def QueryT.order_by (q : QueryT) (specs : List String) : QueryT :=
  { q with orderBySpecs := q.orderBySpecs ++ specs }

/-- `Query.filter(clause)`: AND the clause onto the query (returns a new
query; the receiver is unchanged). -/
def QueryT.filter (q : QueryT) (p : Clause) : QueryT :=
  { q with filterPreds := q.filterPreds ++ [p] }

/-- `Query.filter_by(**fields)`: keyword equality filters. -/
def QueryT.filter_by (q : QueryT) (fields : List (String × Scalar)) : QueryT :=
  { q with filterPreds :=
      q.filterPreds ++ fields.map (fun kv => Clause.cmp .eqOp kv.fst (.scalar kv.snd)) }

/-- Executing the query: the base rows matching every filter predicate. -/
def QueryT.results (q : QueryT) : List Record :=
  q.rows.filter (fun r => q.filterPreds.all (fun p => evalClause p r))

/-- `Query.count()`. -/
def QueryT.count (q : QueryT) : Nat := q.results.length

/-- `Query.one()`: exactly one result, else `NoResultFound` /
`MultipleResultsFound`. -/
def QueryT.one (q : QueryT) : Except PyError Record :=
  match q.results with
  | [r] => .ok r
  | [] => .error .noResultFound
  | _ => .error .multipleResultsFound

/-- Modelled from the spec: `utils.EnumValue` (sort wire shape, spec §6) — an
enum-like sort value whose `.value` is the column spec passed to
`order_by`. -/
structure EnumValue where
  value : String

/-- A `sort` argument: a bare enum value or an ordered sequence of them. -/
inductive SortArg where
  | single (e : EnumValue)
  | seq (es : List EnumValue)

/-- The GraphQL resolution arguments consumed by this pipeline.  Cursors are
opaque base-64 encodings of zero-based offsets (`offset_to_cursor`); the
encoding is injective, so cursors are modelled by the offsets they encode.
`filterArg` is `args.get("filter", {})` read by the filtered connection
field. -/
structure Args where
  first : Option Nat
  last : Option Nat
  after : Option Nat
  before : Option Nat
  sort : Option SortArg
  filterArg : List (String × FVal)

/-- `UnsortedSQLAlchemyConnectionField.get_query(model, info, sort=None,
**args)`: base query plus ORDER BY — a bare `EnumValue` contributes one
column spec, a sequence contributes `col.value` for each element, left to
right. -/
def UnsortedSQLAlchemyConnectionField.get_query (model : Model) (ctx : Context)
    (sort : Option SortArg) : QueryT :=
  let query := utils.get_query model ctx
  match sort with
  | none => query
  | some (.single e) => query.order_by [e.value]
  | some (.seq cols) => query.order_by (cols.map EnumValue.value)

/-- A keyword argument value seen by the filtered `get_query`: a plain value,
or a structured filter-type instance (`SQLAlchemyInputObjectType`) carrying
its backing model (`sqla_model`) and its field map. -/
inductive KwargVal where
  | plain (s : Scalar)
  | inputObject (sqla_model : Model) (fields : List (String × Scalar))

/-- `getattr(model, filter_name, None)`: the attribute when the entity has
one of that name.  A found attribute is truthy, so `if not
model_filter_column: continue` skips exactly the names that are not entity
attributes. -/
def modelGetattr (model : Model) (name : String) : Option String :=
  if model.attrs.contains name then some name else none

/-- The kwargs loop of `SQLAlchemyFilteredConnectionField.get_query`.  For
each kwarg naming an entity attribute and holding a structured filter-type
instance, the source builds a base query for the filter value's model,
resolves it to exactly one row via `filter_by(...).one()` (whose
`NoResultFound`/`MultipleResultsFound` errors propagate), and then evaluates
`query.filter(model_filter_column == ...)` WITHOUT assigning the result: the
filtered query is discarded, so the loop's only lasting effect is a possible
error. -/
def correlatedFilterPass (model : Model) (ctx : Context) (query : QueryT) :
    List (String × KwargVal) → Except PyError Unit
  | [] => .ok ()
  | (filter_name, filter_value) :: rest =>
    match modelGetattr model filter_name with
    | none => correlatedFilterPass model ctx query rest
    | some _ =>
      match filter_value with
      | .inputObject filter_model fields =>
        let q := UnsortedSQLAlchemyConnectionField.get_query filter_model ctx none
        match (q.filter_by fields).one with
        | .ok related =>
          let _discarded := query.filter (Clause.eqRecord filter_name related)
          correlatedFilterPass model ctx query rest
        | .error e => .error e
      | .plain _ => correlatedFilterPass model ctx query rest

/-- `SQLAlchemyFilteredConnectionField.get_query(model, info, where=None,
sort=None, ...)`.  Note the source passes `sort=None` to the base
implementation, so the caller's sort argument is discarded; and `if where:`
is Python truthiness, so both `None` and an empty mapping skip the where
clause. -/
def SQLAlchemyFilteredConnectionField.get_query (model : Model) (ctx : Context)
    (whereArg : Option (List (String × FVal))) (sort : Option SortArg)
    (kwargs : List (String × KwargVal)) : Except PyError QueryT := do
  let query := UnsortedSQLAlchemyConnectionField.get_query model ctx none
  let _ ← correlatedFilterPass model ctx query kwargs
  match whereArg with
  | some w =>
    if w.isEmpty then pure query
    else do
      let clause ← where_clause model w .andC
      pure (query.filter clause)
  | none => pure query

/-- One edge of a connection: the node and the offset its cursor encodes. -/
structure Edge where
  node : Record
  cursor : Nat

/-- Relay page info. -/
structure PageInfoT where
  startCursor : Option Nat
  endCursor : Option Nat
  hasPreviousPage : Bool
  hasNextPage : Bool

/-- A connection envelope: edges plus page info. -/
structure ConnectionT where
  edges : List Edge
  pageInfo : PageInfoT

/-- Python slice-bound normalization for `xs[a:b]` (step 1): a negative
index counts from the end, clamped to `[0, len]`. -/
def pyIndex (len : Nat) (i : Int) : Nat :=
  if i < 0 then ((len : Int) + i).toNat else min i.toNat len

/-- Python `xs[a:b]`. -/
def pySlice (xs : List Record) (a b : Int) : List Record :=
  (xs.take (pyIndex xs.length b)).drop (pyIndex xs.length a)

/-- Modelled from the spec: the external collaborator
`graphql_relay.connection.arrayconnection.connection_from_list_slice`
(spec §4.3: the standard cursor-connection slicing algorithm — decode
`after`/`before` cursors to offsets, bound by `first`/`last`, slice, and
derive page info; edge cursors encode each element's offset in the full
collection).  `first`/`last` are non-negative counts. -/
def connection_from_list_slice (list_slice : List Record) (args : Args)
    (slice_start list_length list_slice_length : Int) : ConnectionT :=
  let slice_end := slice_start + list_slice_length
  let before_offset : Int := match args.before with
    | some c => (c : Int)
    | none => list_length
  let after_offset : Int := match args.after with
    | some c => (c : Int)
    | none => -1
  let start_offset : Int := max (max (slice_start - 1) after_offset) (-1) + 1
  let end_offset : Int := min (min slice_end before_offset) list_length
  let end_offset : Int := match args.first with
    | some f => min end_offset (start_offset + (f : Int))
    | none => end_offset
  let start_offset : Int := match args.last with
    | some l => max start_offset (end_offset - (l : Int))
    | none => start_offset
  let slice := pySlice list_slice (max (start_offset - slice_start) 0)
    (list_slice_length - (slice_end - end_offset))
  let edges := slice.enum.map
    (fun p => { node := p.2, cursor := (start_offset + (p.1 : Int)).toNat : Edge })
  let lower_bound : Int := match args.after with
    | some a => (a : Int) + 1
    | none => 0
  let upper_bound : Int := match args.before with
    | some b => (b : Int)
    | none => list_length
  { edges := edges
    pageInfo :=
      { startCursor := edges.head?.map Edge.cursor
        endCursor := edges.getLast?.map Edge.cursor
        hasPreviousPage := args.last.isSome && decide (start_offset > lower_bound)
        hasNextPage := args.first.isSome && decide (end_offset < upper_bound) } }

/-- What a parent resolver can hand to the pipeline (or what the fallback
query becomes): a query, a list, or a set (a list whose order is
implementation-defined). -/
inductive Resolved where
  | query (q : QueryT)
  | listR (xs : List Record)
  | setR (xs : List Record)

/-- Iterating / slicing the resolved value: a query executes. -/
def toRows : Resolved → List Record
  | .query q => q.results
  | .listR xs => xs
  | .setR xs => xs

/-- The connection envelope returned by `resolve_connection`, together with
the two side-channel attributes the source sets on it (`connection.iterable`
and `connection.length`). -/
structure ResolvedConnection where
  connection : ConnectionT
  iterable : Resolved
  length : Nat

/-- `UnsortedSQLAlchemyConnectionField.resolve_connection(connection_type,
model, info, args, resolved)`.  `get_query_fn` stands for the dynamically
dispatched `cls.get_query(model, info, **args)`.  If `resolved` is `None`
the field builds its own query; a query's total length comes from
`count()`, a concrete collection's from `len()`; a set is converted to a
list after measuring. -/
def UnsortedSQLAlchemyConnectionField.resolve_connection
    (get_query_fn : Args → Except PyError QueryT)
    (args : Args) (resolved0 : Option Resolved) :
    Except PyError ResolvedConnection := do
  let resolved ← match resolved0 with
    | none => (get_query_fn args).map Resolved.query
    | some r => pure r
  let _len : Nat := match resolved with
    | .query q => q.count
    | .listR xs => xs.length
    | .setR xs => xs.length
  let resolved := match resolved with
    | .setR xs => Resolved.listR xs
    | r => r
  let connection := connection_from_list_slice (toRows resolved) args
    0 (_len : Int) (_len : Int)
  pure { connection := connection, iterable := resolved, length := _len }

/-- `UnsortedSQLAlchemyConnectionField.connection_resolver`: invoke the
parent resolver, then resolve the connection over its result (`None` means
"defer to the default query").  The thenable branch (a deferred resolver
result) only reschedules the same continuation and is not modelled. -/
def UnsortedSQLAlchemyConnectionField.connection_resolver
    (resolver : Args → Option Resolved)
    (get_query_fn : Args → Except PyError QueryT)
    (args : Args) : Except PyError ResolvedConnection :=
  UnsortedSQLAlchemyConnectionField.resolve_connection get_query_fn args
    (resolver args)

/-- Modelled from the spec: the schema field looked up as
`getattr(info.schema._query, to_snake_case(info.field_name))` (the graphene
schema collaborator, spec §4.4) carrying its declared required-filter keys
(`[rf.key for rf in field.required]`). -/
structure SchemaFieldInfo where
  required : List String

/-- The slice of `info` the filtered `resolve_connection` reads: the schema
field for the field being resolved, when the lookup finds one with a
truthy `required` declaration list. -/
structure Info where
  queryField : Option SchemaFieldInfo

/-- `set(required_filters) - set(filters.keys())`: the declared-required
keys absent from the caller's filter map.  A Python set is unordered; it is
modelled as the deduplicated sublist of `required` in declaration order. -/
def missingFilters (required filterKeys : List String) : List String :=
  (required.filter (fun k => !filterKeys.contains k)).dedup

/-- `SQLAlchemyFilteredConnectionField.resolve_connection`: before
delegating, check the declared-required filter keys against the caller's
`filter` argument and raise `Exception(missing_filters)` when any are
missing. -/
def SQLAlchemyFilteredConnectionField.resolve_connection (info : Info)
    (get_query_fn : Args → Except PyError QueryT)
    (args : Args) (resolved0 : Option Resolved) :
    Except PyError ResolvedConnection :=
  let filters := args.filterArg
  match info.queryField with
  | some field =>
    if !field.required.isEmpty then
      let missing := missingFilters field.required (filters.map Prod.fst)
      if !missing.isEmpty then
        .error (.exceptionSet missing)
      else
        UnsortedSQLAlchemyConnectionField.resolve_connection get_query_fn args
          resolved0
    else
      UnsortedSQLAlchemyConnectionField.resolve_connection get_query_fn args
        resolved0
  | none =>
    UnsortedSQLAlchemyConnectionField.resolve_connection get_query_fn args
      resolved0

/-- A concrete entity used by the concrete-input theorems below. -/
def articleModel : Model :=
  { name := "Article", attrs := ["id", "headline", "reporter"] }

/-- The scalar types accepted by the `isinstance(value, (str, int, UUID))`
check of `create_filter_clause`; Python booleans are `int` instances. -/
def scalarSupported : Scalar → Bool
  | .str _ | .int _ | .bool _ | .uuid _ => true
  | _ => false


/-- The Boolean meaning of a two-argument combinator application. -/
def opApplyB : Combinator → Bool → Bool → Bool
  | .andC, a, b => a && b
  | .orC, a, b => a || b

/-- The Boolean meaning of the empty combinator call `operator()`. -/
def opNeutralB : Combinator → Bool
  | .andC => true
  | .orC => false

/-- Folding a list of Booleans with a combinator: the conjunction for
`and_`, the disjunction for `or_`. -/
def combineAll (op : Combinator) (bs : List Bool) : Bool :=
  match op with
  | .andC => bs.all id
  | .orC => bs.any id

/-- The row semantics of the sub-predicate a single filter-node key
contributes: reserved `or`/`and` keys with mapping values denote their
recursively compiled child (OR-composed and AND-composed respectively), any
other key denotes its `create_filter_clause` leaf.  (Keys on which
compilation errors evaluate to `false`; they never occur in a successfully
compiled node.) -/
def elemEval (model : Model) (row : Record) : String × FVal → Bool
  | (name, FVal.dict pairs) =>
    if name = "or" then
      match where_clause model pairs .orC with
      | .ok p => evalClause p row
      | .error _ => false
    else if name = "and" then
      match where_clause model pairs .andC with
      | .ok p => evalClause p row
      | .error _ => false
    else
      match create_filter_clause model name (.dict pairs) with
      | .ok (.callable p) => evalClause p row
      | _ => false
  | (name, v) =>
    match create_filter_clause model name v with
    | .ok (.callable p) => evalClause p row
    | _ => false

/-- A related entity used by the correlated-filter theorems. -/
def reporterModel : Model := { name := "Reporter", attrs := ["id", "name"] }

/-- A context with two articles and two reporters; the nested filter
`{id: 7}` resolves to exactly one reporter. -/
def ctx4 : Context :=
  { sessionRows :=
      [("Article",
        [[("id", Scalar.int 1), ("reporter", Scalar.int 7)],
         [("id", Scalar.int 2), ("reporter", Scalar.int 8)]]),
       ("Reporter", [[("id", Scalar.int 7)], [("id", Scalar.int 8)]])] }

/-- Like `ctx4`, but with two reporters matching `{id: 7}`, so the one-row
sub-query fails with `MultipleResultsFound`. -/
def ctx4b : Context :=
  { sessionRows :=
      [("Article",
        [[("id", Scalar.int 1), ("reporter", Scalar.int 7)]]),
       ("Reporter", [[("id", Scalar.int 7)], [("id", Scalar.int 7)]])] }

/-- C1 counterexample: a leaf with the single unrecognized operator tag
`bogus` makes `where_clause` raise a `TypeError` (the empty tuple left by
`create_filter_clause` is called), while the node with that key removed
compiles to a predicate — so the compilation is NOT error-free and NOT equal
to the key-removed compilation, contrary to the claim. -/
theorem unknownOperatorWhereClauseCounterexample :
    where_clause articleModel
        [("headline", FVal.dict [("bogus", FVal.scalar (Scalar.int 1))])]
        Combinator.andC
      = .error (PyError.typeError "tuple object is not callable")
    ∧ where_clause articleModel [] Combinator.andC
      = .ok (Clause.group Clause.trueAll) := by
  constructor
  · simp [where_clause, whereFold, create_filter_clause, opEmpty]
  · simp [where_clause, whereFold, opEmpty]

/-- C1 (amended): for every filter node containing a field-name key (not the
reserved `or`/`and`) whose mapping value holds a single unrecognized
operator tag, compiling the node with `where_clause` raises a `TypeError`:
`create_filter_clause` leaves the empty tuple `clause = ()` for the
unrecognized tag and `where_clause` immediately calls it.  The leaf is not
silently dropped and no predicate is produced. -/
theorem unknownOperatorRaisesTypeError (model : Model) (field op : String)
    (v : FVal) (rest : List (String × FVal)) (operator : Combinator)
    (hop : op ∉ ["equal", "notEqual", "lessThan", "greaterThan", "like", "in"])
    (hf1 : field ≠ "or") (hf2 : field ≠ "and") :
    where_clause model ((field, FVal.dict [(op, v)]) :: rest) operator =
      .error (.typeError "tuple object is not callable") := by
  simp only [List.mem_cons, List.not_mem_nil, or_false, not_or] at hop
  obtain ⟨h1, h2, h3, h4, h5, h6⟩ := hop
  simp [where_clause, whereFold, create_filter_clause, hf1, hf2,
    h1, h2, h3, h4, h5, h6]

/-- C1 witness: the amended theorem at a concrete input. -/
theorem unknownOperatorRaisesTypeErrorWitness :
    where_clause articleModel
        [("headline", FVal.dict [("bogus", FVal.scalar (Scalar.int 1))])]
        Combinator.orC
      = .error (.typeError "tuple object is not callable") :=
  unknownOperatorRaisesTypeError articleModel "headline" "bogus"
    (FVal.scalar (Scalar.int 1)) [] Combinator.orC
    (by decide) (by decide) (by decide)

/-- C3: the reserved keys recurse with the corresponding combinator and each
sub-level is self-grouped, so `{or: {a: va, and: {b: vb, c: vc}}}` compiles
(under the default AND context) to a self-grouped predicate matching exactly
the rows with `a = va` OR (`b = vb` AND `c = vc`). -/
theorem whereClauseNestedOrAndExample (model : Model) (va vb vc : Int)
    (row : Record) :
    ∃ q, where_clause model
        [("or", FVal.dict
          [("a", FVal.scalar (Scalar.int va)),
           ("and", FVal.dict
             [("b", FVal.scalar (Scalar.int vb)),
              ("c", FVal.scalar (Scalar.int vc))])])]
        Combinator.andC = .ok (Clause.group q)
      ∧ evalClause (Clause.group q) row =
          (scalarEq (recGet row "a") (Scalar.int va)
            || (scalarEq (recGet row "b") (Scalar.int vb)
                && scalarEq (recGet row "c") (Scalar.int vc))) := by
  refine ⟨Clause.conj2 Clause.trueAll (Clause.group
      (Clause.disj2
        (Clause.disj2 Clause.falseAny
          (Clause.cmp .eqOp "a" (FVal.scalar (Scalar.int va))))
        (Clause.group (Clause.conj2
          (Clause.conj2 Clause.trueAll
            (Clause.cmp .eqOp "b" (FVal.scalar (Scalar.int vb))))
          (Clause.cmp .eqOp "c" (FVal.scalar (Scalar.int vc))))))), ?_, ?_⟩
  · simp [where_clause, whereFold, create_filter_clause, opEmpty, applyOp]
  · rfl

/-- C9 counterexample: a bare boolean is a scalar of a type other than
string, integer and unique-identifier, yet `create_filter_clause` does not
raise for it: Python booleans are `int` instances, so `isinstance(value,
(str, int, UUID))` passes and an equality predicate is produced. -/
theorem bareBoolScalarCounterexample :
    create_filter_clause articleModel "flag" (FVal.scalar (Scalar.bool true))
      = .ok (ClauseResult.callable
          (Clause.cmp CmpOp.eqOp "flag" (FVal.scalar (Scalar.bool true)))) :=
  rfl

/-- C9 (amended): a bare string, integer, boolean or unique-identifier
scalar compiles to an equality predicate (booleans pass Python's integer
`isinstance` check); a bare scalar of any other type raises
`NotImplementedError` identifying the field, the value's type and the
entity. -/
theorem createFilterClauseScalarDispatch (model : Model) (field : String)
    (v : Scalar) :
    create_filter_clause model field (.scalar v) =
      if scalarSupported v then
        .ok (.callable (.cmp .eqOp field (.scalar v)))
      else
        .error (.notImplementedError field (pyTypeName (.scalar v)) model.name) := by
  cases v <;> rfl

/-- C10: a filter-leaf mapping with zero keys or two and more keys fails the
single-pair destructuring `[(operator, value)] = value.items()` with a
`ValueError`, both in `create_filter_clause` and through `where_clause`; it
is never treated as an equality filter and never silently dropped. -/
theorem destructureSinglePairEnforced (model : Model) (field : String)
    (pairs rest : List (String × FVal)) (operator : Combinator)
    (h : pairs.length ≠ 1) (hf1 : field ≠ "or") (hf2 : field ≠ "and") :
    (∃ msg, create_filter_clause model field (.dict pairs)
        = .error (.valueError msg))
    ∧ ∃ msg, where_clause model ((field, FVal.dict pairs) :: rest) operator
        = .error (.valueError msg) := by
  match pairs, h with
  | [], _ =>
    refine ⟨⟨"not enough values to unpack (expected 1, got 0)", rfl⟩,
      ⟨"not enough values to unpack (expected 1, got 0)", ?_⟩⟩
    simp [where_clause, whereFold, create_filter_clause, hf1, hf2]
  | [(a, b)], h => exact absurd rfl h
  | x :: y :: t, _ =>
    refine ⟨⟨"too many values to unpack (expected 1)", rfl⟩,
      ⟨"too many values to unpack (expected 1)", ?_⟩⟩
    simp [where_clause, whereFold, create_filter_clause, hf1, hf2]

/-- C10 witness: the theorem at a concrete input (the empty mapping). -/
theorem destructureSinglePairEnforcedWitness :
    (∃ msg, create_filter_clause articleModel "headline" (FVal.dict [])
        = .error (.valueError msg))
    ∧ ∃ msg, where_clause articleModel [("headline", FVal.dict [])]
        Combinator.andC = .error (.valueError msg) :=
  destructureSinglePairEnforced articleModel "headline" [] [] Combinator.andC
    (by decide) (by decide) (by decide)

theorem evalClause_applyOp (op : Combinator) (a b : Clause) (row : Record) :
    evalClause (applyOp op a b) row
      = opApplyB op (evalClause a row) (evalClause b row) := by
  cases op <;> rfl

theorem evalClause_opEmpty (op : Combinator) (row : Record) :
    evalClause (opEmpty op) row = opNeutralB op := by
  cases op <;> rfl

theorem opApplyB_assoc (op : Combinator) (a b c : Bool) :
    opApplyB op (opApplyB op a b) c = opApplyB op a (opApplyB op b c) := by
  cases op <;> simp [opApplyB, Bool.and_assoc, Bool.or_assoc]

theorem combineAll_cons (op : Combinator) (b : Bool) (bs : List Bool) :
    combineAll op (b :: bs) = opApplyB op b (combineAll op bs) := by
  cases op <;> simp [combineAll, opApplyB]

theorem combineAll_nil (op : Combinator) : combineAll op [] = opNeutralB op := by
  cases op <;> rfl

theorem opApplyB_neutral (op : Combinator) (a : Bool) :
    opApplyB op a (opNeutralB op) = a := by
  cases op <;> simp [opApplyB, opNeutralB]

theorem opApplyB_neutral_left (op : Combinator) (a : Bool) :
    opApplyB op (opNeutralB op) a = a := by
  cases op <;> simp [opApplyB, opNeutralB]

/-- The fold of `where_clause` evaluates to the combinator-fold of the
accumulated clause with each key's sub-predicate, left to right. -/
theorem whereFold_eval (model : Model) (op : Combinator) (row : Record) :
    ∀ (l : List (String × FVal)) (acc p : Clause),
      whereFold model op acc l = .ok p →
      evalClause p row = opApplyB op (evalClause acc row)
        (combineAll op (l.map (elemEval model row))) := by
  intro l
  induction l with
  | nil =>
    intro acc p h
    unfold whereFold at h
    cases h
    rw [List.map_nil, combineAll_nil, opApplyB_neutral]
  | cons head rest ih =>
    obtain ⟨name, value⟩ := head
    intro acc p h
    cases value with
    | dict pairs =>
      unfold whereFold at h
      dsimp only at h
      by_cases hor : name = "or"
      · rw [if_pos hor] at h
        cases hsub : whereFold model .orC (opEmpty .orC) pairs with
        | ok sub =>
          rw [hsub] at h
          dsimp only at h
          have hstep := ih (applyOp op acc (Clause.group sub)) p h
          have he : elemEval model row (name, FVal.dict pairs)
              = evalClause sub row := by
            simp [elemEval, hor, where_clause, hsub, evalClause]
          rw [hstep, evalClause_applyOp, List.map_cons, combineAll_cons, he,
            opApplyB_assoc]
          rfl
        | error e => rw [hsub] at h; simp at h
      · by_cases hand : name = "and"
        · rw [if_neg hor, if_pos hand] at h
          cases hsub : whereFold model .andC (opEmpty .andC) pairs with
          | ok sub =>
            rw [hsub] at h
            dsimp only at h
            have hstep := ih (applyOp op acc (Clause.group sub)) p h
            have he : elemEval model row (name, FVal.dict pairs)
                = evalClause sub row := by
              simp [elemEval, hor, hand, where_clause, hsub, evalClause]
            rw [hstep, evalClause_applyOp, List.map_cons, combineAll_cons, he,
              opApplyB_assoc]
            rfl
          | error e => rw [hsub] at h; simp at h
        · rw [if_neg hor, if_neg hand] at h
          cases hc : create_filter_clause model name (.dict pairs) with
          | ok cr =>
            cases cr with
            | callable p0 =>
              rw [hc] at h
              dsimp only at h
              have hstep := ih (applyOp op acc p0) p h
              have he : elemEval model row (name, FVal.dict pairs)
                  = evalClause p0 row := by
                simp [elemEval, hor, hand, hc]
              rw [hstep, evalClause_applyOp, List.map_cons, combineAll_cons,
                he, opApplyB_assoc]
            | emptyTuple => rw [hc] at h; simp at h
          | error e => rw [hc] at h; simp at h
    | scalar s =>
      unfold whereFold at h
      dsimp only at h
      cases hc : create_filter_clause model name (.scalar s) with
      | ok cr =>
        cases cr with
        | callable p0 =>
          rw [hc] at h
          dsimp only at h
          have hstep := ih (applyOp op acc p0) p h
          have he : elemEval model row (name, FVal.scalar s)
              = evalClause p0 row := by
            simp [elemEval, hc]
          rw [hstep, evalClause_applyOp, List.map_cons, combineAll_cons, he,
            opApplyB_assoc]
        | emptyTuple => rw [hc] at h; simp at h
      | error e => rw [hc] at h; simp at h

/-- A successfully compiled filter node matches a row exactly when the
combinator-fold of its keys' sub-predicates does. -/
theorem where_clause_eval (model : Model) (l : List (String × FVal))
    (op : Combinator) (p : Clause) (row : Record)
    (h : where_clause model l op = .ok p) :
    evalClause p row = combineAll op (l.map (elemEval model row)) := by
  unfold where_clause at h
  cases hf : whereFold model op (opEmpty op) l with
  | ok q =>
    rw [hf] at h
    dsimp only at h
    cases h
    have hq := whereFold_eval model op row l (opEmpty op) q hf
    calc evalClause (Clause.group q) row = evalClause q row := rfl
      _ = opApplyB op (evalClause (opEmpty op) row)
            (combineAll op (l.map (elemEval model row))) := hq
      _ = combineAll op (l.map (elemEval model row)) := by
          rw [evalClause_opEmpty, opApplyB_neutral_left]
  | error e => rw [hf] at h; simp at h

/-- Conjunction and disjunction of a Boolean list are invariant under
permutation. -/
theorem combineAll_perm (op : Combinator) {bs bs' : List Bool}
    (h : bs.Perm bs') : combineAll op bs = combineAll op bs' := by
  cases op
  · show bs.all id = bs'.all id
    cases hb : bs.all id with
    | true =>
      exact (List.all_eq_true.mpr
        (fun x hx => List.all_eq_true.mp hb x (h.mem_iff.mpr hx))).symm
    | false =>
      cases hb' : bs'.all id with
      | false => rfl
      | true =>
        have := List.all_eq_true.mpr
          (fun x hx => List.all_eq_true.mp hb' x (h.mem_iff.mp hx))
        rw [hb] at this; exact this
  · show bs.any id = bs'.any id
    cases hb : bs.any id with
    | true =>
      obtain ⟨x, hx, hxt⟩ := List.any_eq_true.mp hb
      exact (List.any_eq_true.mpr ⟨x, h.mem_iff.mp hx, hxt⟩).symm
    | false =>
      cases hb' : bs'.any id with
      | false => rfl
      | true =>
        obtain ⟨x, hx, hxt⟩ := List.any_eq_true.mp hb'
        have := List.any_eq_true.mpr ⟨x, h.mem_iff.mpr hx, hxt⟩
        rw [hb] at this; exact this

/-- C2 counterexample: under an enclosing `or` combinator the sibling keys
`a` and `b` are OR-combined, not AND-combined: the node
`{or: {a: 1, b: 2}}` matches a row with `a = 1, b = 99` (and so does the
inner node compiled with OR-composition as its parent requests), while the
AND-conjunction of the two keys' sub-predicates does not match it. -/
theorem orSiblingsNotConjunctionCounterexample :
    filterCompiledMatches articleModel
        [("or", FVal.dict [("a", FVal.scalar (Scalar.int 1)),
                           ("b", FVal.scalar (Scalar.int 2))])]
        Combinator.andC [("a", Scalar.int 1), ("b", Scalar.int 99)] = true
    ∧ filterCompiledMatches articleModel
        [("a", FVal.scalar (Scalar.int 1)), ("b", FVal.scalar (Scalar.int 2))]
        Combinator.orC [("a", Scalar.int 1), ("b", Scalar.int 99)] = true
    ∧ combineAll Combinator.andC
        ([("a", FVal.scalar (Scalar.int 1)),
          ("b", FVal.scalar (Scalar.int 2))].map
          (elemEval articleModel [("a", Scalar.int 1), ("b", Scalar.int 99)]))
      = false := by
  refine ⟨?_, ?_, ?_⟩ <;>
    simp [filterCompiledMatches, where_clause, whereFold, create_filter_clause,
      opEmpty, applyOp, elemEval, combineAll, evalClause, evalCmp, recGet,
      scalarEq, List.find?]

/-- C2 (amended): sibling keys of a filter node are combined with the
node's governing combinator — AND at the top level and under an `and` key,
OR under an `or` key — and in either case the predicate's matching row set
is invariant under permutation of the keys. -/
theorem siblingKeysCombinatorSemantics (model : Model)
    (l l' : List (String × FVal)) (op : Combinator) (p p' : Clause)
    (row : Record) (hperm : l.Perm l')
    (h : where_clause model l op = .ok p)
    (h' : where_clause model l' op = .ok p') :
    evalClause p row = combineAll op (l.map (elemEval model row))
    ∧ evalClause p' row = evalClause p row := by
  have e1 := where_clause_eval model l op p row h
  have e2 := where_clause_eval model l' op p' row h'
  refine ⟨e1, ?_⟩
  rw [e1, e2]
  exact (combineAll_perm op (hperm.map (elemEval model row))).symm

/-- C2 witness: the amended theorem at the concrete node `{a: 1, b: 2}`
under OR-composition, against its key-swapped permutation, on the row
`a = 1, b = 99`. -/
theorem siblingKeysCombinatorSemanticsWitness :
    evalClause (Clause.group (Clause.disj2
        (Clause.disj2 Clause.falseAny
          (Clause.cmp .eqOp "a" (FVal.scalar (Scalar.int 1))))
        (Clause.cmp .eqOp "b" (FVal.scalar (Scalar.int 2)))))
      [("a", Scalar.int 1), ("b", Scalar.int 99)]
      = combineAll Combinator.orC
          ([("a", FVal.scalar (Scalar.int 1)),
            ("b", FVal.scalar (Scalar.int 2))].map
            (elemEval articleModel [("a", Scalar.int 1), ("b", Scalar.int 99)]))
    ∧ evalClause (Clause.group (Clause.disj2
        (Clause.disj2 Clause.falseAny
          (Clause.cmp .eqOp "b" (FVal.scalar (Scalar.int 2))))
        (Clause.cmp .eqOp "a" (FVal.scalar (Scalar.int 1)))))
      [("a", Scalar.int 1), ("b", Scalar.int 99)]
      = evalClause (Clause.group (Clause.disj2
        (Clause.disj2 Clause.falseAny
          (Clause.cmp .eqOp "a" (FVal.scalar (Scalar.int 1))))
        (Clause.cmp .eqOp "b" (FVal.scalar (Scalar.int 2)))))
      [("a", Scalar.int 1), ("b", Scalar.int 99)] :=
  siblingKeysCombinatorSemantics articleModel
    [("a", FVal.scalar (Scalar.int 1)), ("b", FVal.scalar (Scalar.int 2))]
    [("b", FVal.scalar (Scalar.int 2)), ("a", FVal.scalar (Scalar.int 1))]
    Combinator.orC _ _ [("a", Scalar.int 1), ("b", Scalar.int 99)]
    (List.Perm.swap ("b", FVal.scalar (Scalar.int 2))
      ("a", FVal.scalar (Scalar.int 1)) [])
    (by simp [where_clause, whereFold, create_filter_clause, opEmpty, applyOp])
    (by simp [where_clause, whereFold, create_filter_clause, opEmpty, applyOp])

/-- The kwargs loop can only end in an error (from a one-row sub-query) or
complete without effect. -/
theorem correlatedFilterPassShape (model : Model) (ctx : Context)
    (query : QueryT) :
    ∀ kwargs : List (String × KwargVal),
      (∃ e, correlatedFilterPass model ctx query kwargs = .error e)
      ∨ correlatedFilterPass model ctx query kwargs = .ok () := by
  intro kwargs
  induction kwargs with
  | nil => right; rfl
  | cons head rest ih =>
    obtain ⟨fname, fval⟩ := head
    cases hg : modelGetattr model fname with
    | none =>
      rcases ih with ⟨e, he⟩ | hok
      · left; exact ⟨e, by simp [correlatedFilterPass, hg, he]⟩
      · right; simp [correlatedFilterPass, hg, hok]
    | some att =>
      cases fval with
      | plain s =>
        rcases ih with ⟨e, he⟩ | hok
        · left; exact ⟨e, by simp [correlatedFilterPass, hg, he]⟩
        · right; simp [correlatedFilterPass, hg, hok]
      | inputObject fm fields =>
        cases ho : ((UnsortedSQLAlchemyConnectionField.get_query fm ctx
            none).filter_by fields).one with
        | ok r =>
          rcases ih with ⟨e, he⟩ | hok
          · left; exact ⟨e, by simp [correlatedFilterPass, hg, ho, he]⟩
          · right; simp [correlatedFilterPass, hg, ho, hok]
        | error e =>
          left; exact ⟨e, by simp [correlatedFilterPass, hg, ho]⟩

/-- The filtered `get_query`, written as the bind it desugars to. -/
theorem filteredGetQueryUnfold (model : Model) (ctx : Context)
    (whereArg : Option (List (String × FVal))) (sort : Option SortArg)
    (kwargs : List (String × KwargVal)) :
    SQLAlchemyFilteredConnectionField.get_query model ctx whereArg sort kwargs
      = (correlatedFilterPass model ctx
          (UnsortedSQLAlchemyConnectionField.get_query model ctx none) kwargs >>=
        fun _ =>
          match whereArg with
          | some w =>
            if w.isEmpty then
              Except.ok (UnsortedSQLAlchemyConnectionField.get_query model ctx none)
            else
              where_clause model w .andC >>= fun clause =>
                Except.ok ((UnsortedSQLAlchemyConnectionField.get_query
                  model ctx none).filter clause)
          | none =>
            Except.ok (UnsortedSQLAlchemyConnectionField.get_query model ctx none)) :=
  rfl

/-- Whatever query the filtered `get_query` returns carries no ORDER BY:
the base query is built with `sort=None` and only `filter` is ever applied
to it. -/
theorem filteredGetQueryOkShape (model : Model) (ctx : Context)
    (whereArg : Option (List (String × FVal))) (sort : Option SortArg)
    (kwargs : List (String × KwargVal)) (q : QueryT)
    (hq : SQLAlchemyFilteredConnectionField.get_query model ctx whereArg sort
        kwargs = .ok q) :
    q.orderBySpecs = [] := by
  cases whereArg with
  | none =>
    cases hpass : correlatedFilterPass model ctx
        (UnsortedSQLAlchemyConnectionField.get_query model ctx none) kwargs with
    | error e =>
      have hred : SQLAlchemyFilteredConnectionField.get_query model ctx none
          sort kwargs = .error e := by
        rw [filteredGetQueryUnfold, hpass]; rfl
      rw [hred] at hq
      exact absurd hq (by simp)
    | ok u =>
      cases u
      have hred : SQLAlchemyFilteredConnectionField.get_query model ctx none
          sort kwargs
          = Except.ok (UnsortedSQLAlchemyConnectionField.get_query model ctx
              none) := by
        rw [filteredGetQueryUnfold, hpass]; rfl
      rw [hred] at hq
      cases hq; rfl
  | some w =>
    cases hpass : correlatedFilterPass model ctx
        (UnsortedSQLAlchemyConnectionField.get_query model ctx none) kwargs with
    | error e =>
      have hred : SQLAlchemyFilteredConnectionField.get_query model ctx (some w)
          sort kwargs = .error e := by
        rw [filteredGetQueryUnfold, hpass]; rfl
      rw [hred] at hq
      exact absurd hq (by simp)
    | ok u =>
      cases u
      have hred : SQLAlchemyFilteredConnectionField.get_query model ctx (some w)
          sort kwargs
          = if w.isEmpty then
              Except.ok (UnsortedSQLAlchemyConnectionField.get_query model ctx
                none)
            else
              where_clause model w .andC >>= fun clause =>
                Except.ok ((UnsortedSQLAlchemyConnectionField.get_query
                  model ctx none).filter clause) := by
        rw [filteredGetQueryUnfold, hpass]; rfl
      rw [hred] at hq
      by_cases hw : w.isEmpty
      · rw [if_pos hw] at hq
        cases hq; rfl
      · rw [if_neg hw] at hq
        cases hwc : where_clause model w .andC with
        | ok c =>
          rw [hwc, show ((Except.ok c : Except PyError Clause) >>= fun clause =>
              Except.ok ((UnsortedSQLAlchemyConnectionField.get_query
                model ctx none).filter clause))
              = Except.ok ((UnsortedSQLAlchemyConnectionField.get_query
                model ctx none).filter c) from rfl] at hq
          cases hq; rfl
        | error e2 =>
          rw [hwc, show ((Except.error e2 : Except PyError Clause) >>= fun clause =>
              Except.ok ((UnsortedSQLAlchemyConnectionField.get_query
                model ctx none).filter clause))
              = (Except.error e2 : Except PyError QueryT) from rfl] at hq
          exact absurd hq (by simp)

/-- C4 counterexample: with a kwarg naming the `reporter` attribute and
holding a structured filter-type instance `{id: 7}` that resolves to exactly
one reporter, the filtered `get_query` returns exactly the unconstrained
base query — zero filter predicates — because the source never assigns the
result of `query.filter(...)`.  The loop does execute: with two matching
reporters (`ctx4b`) the same call fails with `MultipleResultsFound` from the
one-row sub-query. -/
theorem correlatedFilterDiscardedCounterexample :
    SQLAlchemyFilteredConnectionField.get_query articleModel ctx4 none none
        [("reporter", KwargVal.inputObject reporterModel [("id", Scalar.int 7)])]
      = .ok (utils.get_query articleModel ctx4)
    ∧ (utils.get_query articleModel ctx4).filterPreds = []
    ∧ SQLAlchemyFilteredConnectionField.get_query articleModel ctx4b none none
        [("reporter", KwargVal.inputObject reporterModel [("id", Scalar.int 7)])]
      = .error PyError.multipleResultsFound := by
  refine ⟨?_, rfl, ?_⟩ <;>
    simp [SQLAlchemyFilteredConnectionField.get_query, correlatedFilterPass,
      modelGetattr, articleModel, reporterModel, ctx4, ctx4b,
      UnsortedSQLAlchemyConnectionField.get_query, utils.get_query, ctxRows,
      QueryT.filter_by, QueryT.one, QueryT.results, QueryT.filter,
      evalClause, evalCmp, recGet, scalarEq, List.find?]

/-- C4 (amended): for every kwarg set, the filtered `get_query` (with no
`where` argument) either propagates an error from a one-row sub-query or
returns the base query completely unconstrained by the kwargs: the
correlated filter built from a structured filter-type kwarg is evaluated
but discarded, never attached to the returned query. -/
theorem filteredGetQueryIgnoresKwargs (model : Model) (ctx : Context)
    (sort : Option SortArg) (kwargs : List (String × KwargVal)) :
    (∃ e, SQLAlchemyFilteredConnectionField.get_query model ctx none sort
        kwargs = .error e)
    ∨ SQLAlchemyFilteredConnectionField.get_query model ctx none sort kwargs
        = .ok (UnsortedSQLAlchemyConnectionField.get_query model ctx none) := by
  rcases correlatedFilterPassShape model ctx
      (UnsortedSQLAlchemyConnectionField.get_query model ctx none) kwargs with
    ⟨e, he⟩ | hok
  · left
    exact ⟨e, by simp [SQLAlchemyFilteredConnectionField.get_query, he]⟩
  · right
    simp [SQLAlchemyFilteredConnectionField.get_query, hok]

/-- C5 counterexample: the base field applies the sort argument, but the
filtered field discards it (it passes `sort=None` to the base
implementation), returning the base query with no ORDER BY. -/
theorem filteredSortDiscardedCounterexample :
    (UnsortedSQLAlchemyConnectionField.get_query articleModel ctx4
        (some (.single ⟨"headline asc"⟩))).orderBySpecs = ["headline asc"]
    ∧ SQLAlchemyFilteredConnectionField.get_query articleModel ctx4 none
        (some (.single ⟨"headline asc"⟩)) []
      = .ok (utils.get_query articleModel ctx4)
    ∧ (utils.get_query articleModel ctx4).orderBySpecs = [] :=
  ⟨rfl, rfl, rfl⟩

/-- C5 (amended): the base connection field's `get_query` applies ORDER BY
in the given order — a bare enum value contributes one column spec and a
sequence its `value`s left to right — but the filtered connection field's
`get_query` discards its sort argument, so every query it returns has no
ORDER BY. -/
theorem getQuerySortApplication (model : Model) (ctx : Context) (e : EnumValue)
    (es : List EnumValue) (whereArg : Option (List (String × FVal)))
    (sort : Option SortArg) (kwargs : List (String × KwargVal)) (q : QueryT)
    (hq : SQLAlchemyFilteredConnectionField.get_query model ctx whereArg sort
        kwargs = .ok q) :
    (UnsortedSQLAlchemyConnectionField.get_query model ctx none).orderBySpecs
      = []
    ∧ (UnsortedSQLAlchemyConnectionField.get_query model ctx
        (some (.single e))).orderBySpecs = [e.value]
    ∧ (UnsortedSQLAlchemyConnectionField.get_query model ctx
        (some (.seq es))).orderBySpecs = es.map EnumValue.value
    ∧ q.orderBySpecs = [] :=
  ⟨rfl, rfl, rfl, filteredGetQueryOkShape model ctx whereArg sort kwargs q hq⟩

/-- C5 witness: the amended theorem at a concrete input, with the filtered
field called with a sort argument and returning the base query. -/
theorem getQuerySortApplicationWitness :
    (UnsortedSQLAlchemyConnectionField.get_query articleModel ctx4
        none).orderBySpecs = []
    ∧ (UnsortedSQLAlchemyConnectionField.get_query articleModel ctx4
        (some (.single ⟨"headline asc"⟩))).orderBySpecs = ["headline asc"]
    ∧ (UnsortedSQLAlchemyConnectionField.get_query articleModel ctx4
        (some (.seq [⟨"headline asc"⟩, ⟨"id desc"⟩]))).orderBySpecs
      = [(⟨"headline asc"⟩ : EnumValue), ⟨"id desc"⟩].map EnumValue.value
    ∧ (utils.get_query articleModel ctx4).orderBySpecs = [] :=
  getQuerySortApplication articleModel ctx4 ⟨"headline asc"⟩
    [⟨"headline asc"⟩, ⟨"id desc"⟩] none (some (.single ⟨"headline asc"⟩)) []
    (utils.get_query articleModel ctx4) rfl

theorem take_min_length (xs : List Record) (m : Nat) :
    xs.take (min m xs.length) = xs.take m := by
  rcases le_total m xs.length with h | h
  · rw [min_eq_left h]
  · rw [min_eq_right h, List.take_length, List.take_of_length_le h]

theorem pySlice_zero (xs : List Record) (m : Nat) :
    pySlice xs 0 (m : Int) = xs.take m := by
  unfold pySlice pyIndex
  simp [take_min_length]
  rw [if_neg (by omega : ¬((m : Int) < 0))]
  omega

/-- With `first=k` and no cursors, the cursor-connection algorithm takes the
first `min(k, N)` elements, gives them cursors `0, 1, …`, and reports
`hasNextPage` exactly when the slice stops short of the full collection. -/
theorem cflsFirstOnly (xs : List Record) (args : Args) (k : Nat)
    (h1 : args.first = some k) (h2 : args.after = none)
    (h3 : args.before = none) (h4 : args.last = none) :
    (connection_from_list_slice xs args 0 xs.length xs.length).edges
        = (xs.take (min k xs.length)).enum.map
            (fun p => { node := p.2, cursor := p.1 })
    ∧ (connection_from_list_slice xs args 0 xs.length
        xs.length).pageInfo.hasNextPage = decide (k < xs.length)
    ∧ (connection_from_list_slice xs args 0 xs.length
        xs.length).pageInfo.hasPreviousPage = false := by
  refine ⟨?_, ?_, ?_⟩
  · simp only [connection_from_list_slice, h1, h2, h3, h4]
    norm_num
    rw [← Nat.cast_min, pySlice_zero, Nat.min_comm]
  · simp only [connection_from_list_slice, h1, h2, h3, h4]
    norm_num
  · simp only [connection_from_list_slice, h1, h2, h3, h4]
    norm_num

theorem resolveConnectionList (gq : Args → Except PyError QueryT) (args : Args)
    (xs : List Record) :
    UnsortedSQLAlchemyConnectionField.resolve_connection gq args
        (some (.listR xs))
      = .ok { connection := connection_from_list_slice xs args 0
                xs.length xs.length,
              iterable := .listR xs, length := xs.length } := rfl

/-- C6: for a concrete resolved collection of length `N` and `first=k` with
no cursors, `resolve_connection` returns the first `min(k, N)` elements as
edges with cursors encoding offsets `0 … min(k, N)-1` of the full
collection, `hasNextPage = (k < N)`, `hasPreviousPage = false`, and total
length `N`. -/
theorem resolveConnectionFirstK (gq : Args → Except PyError QueryT)
    (args : Args) (xs : List Record) (k : Nat)
    (h1 : args.first = some k) (h2 : args.after = none)
    (h3 : args.before = none) (h4 : args.last = none) :
    (UnsortedSQLAlchemyConnectionField.resolve_connection gq args
        (some (.listR xs))).map
      (fun rc => (rc.connection.edges, rc.connection.pageInfo.hasNextPage,
        rc.connection.pageInfo.hasPreviousPage, rc.length))
      = .ok ((xs.take (min k xs.length)).enum.map
          (fun p => { node := p.2, cursor := p.1 }),
        decide (k < xs.length), false, xs.length) := by
  obtain ⟨he, hn, hp⟩ := cflsFirstOnly xs args k h1 h2 h3 h4
  rw [resolveConnectionList]
  simp [Except.map, he, hn, hp]

/-- C6 witness: a three-element collection with `first=2` yields the first
two elements with cursors `0` and `1`, `hasNextPage`, and length `3`. -/
theorem resolveConnectionFirstKWitness :
    (UnsortedSQLAlchemyConnectionField.resolve_connection
        (fun _ => .error (.typeError "unused"))
        { first := some 2, last := none, after := none, before := none,
          sort := none, filterArg := [] }
        (some (.listR ([[], [], []] : List Record)))).map
      (fun rc => (rc.connection.edges, rc.connection.pageInfo.hasNextPage,
        rc.connection.pageInfo.hasPreviousPage, rc.length))
      = .ok ((([[], [], []] : List Record).take
            (min 2 ([[], [], []] : List Record).length)).enum.map
          (fun p => { node := p.2, cursor := p.1 }),
        decide (2 < ([[], [], []] : List Record).length), false,
        ([[], [], []] : List Record).length) :=
  resolveConnectionFirstK (fun _ => .error (.typeError "unused"))
    { first := some 2, last := none, after := none, before := none,
      sort := none, filterArg := [] }
    ([[], [], []] : List Record) 2 rfl rfl rfl rfl

/-- C7: when the parent resolver returns `None`, `resolve_connection` builds
its own query and measures it with `count()`; when it returns a concrete
list, the result is computed from that list alone — for EVERY query
function, i.e. no query is consulted — with the element count as total
length.  In both cases the envelope carries the resolved iterable and its
length as the `iterable`/`length` attributes. -/
theorem connectionResolverDeferral
    (resolver resolver' : Args → Option Resolved)
    (gq gq' : Args → Except PyError QueryT) (args : Args) (q : QueryT)
    (xs : List Record)
    (hr : resolver args = none) (hq : gq args = .ok q)
    (hr' : resolver' args = some (.listR xs)) :
    UnsortedSQLAlchemyConnectionField.connection_resolver resolver gq args
      = .ok { connection := connection_from_list_slice q.results args 0
                q.count q.count,
              iterable := .query q, length := q.count }
    ∧ UnsortedSQLAlchemyConnectionField.connection_resolver resolver' gq' args
      = .ok { connection := connection_from_list_slice xs args 0
                xs.length xs.length,
              iterable := .listR xs, length := xs.length } := by
  constructor
  · unfold UnsortedSQLAlchemyConnectionField.connection_resolver
    rw [hr]
    simp [UnsortedSQLAlchemyConnectionField.resolve_connection, hq,
      Except.map, toRows, QueryT.count]
  · unfold UnsortedSQLAlchemyConnectionField.connection_resolver
    rw [hr', resolveConnectionList]

/-- C7 witness: the theorem at a concrete deferring resolver (backed by the
`ctx4` session) and a concrete list-returning resolver whose query function
always errors — showing the list path never consults it. -/
theorem connectionResolverDeferralWitness :
    UnsortedSQLAlchemyConnectionField.connection_resolver (fun _ => none)
        (fun _ => .ok (utils.get_query articleModel ctx4))
        { first := none, last := none, after := none, before := none,
          sort := none, filterArg := [] }
      = .ok { connection := connection_from_list_slice
                (utils.get_query articleModel ctx4).results
                { first := none, last := none, after := none, before := none,
                  sort := none, filterArg := [] }
                0 (utils.get_query articleModel ctx4).count
                (utils.get_query articleModel ctx4).count,
              iterable := .query (utils.get_query articleModel ctx4),
              length := (utils.get_query articleModel ctx4).count }
    ∧ UnsortedSQLAlchemyConnectionField.connection_resolver
        (fun _ => some (.listR ([[]] : List Record)))
        (fun _ => .error (.typeError "unused"))
        { first := none, last := none, after := none, before := none,
          sort := none, filterArg := [] }
      = .ok { connection := connection_from_list_slice ([[]] : List Record)
                { first := none, last := none, after := none, before := none,
                  sort := none, filterArg := [] }
                0 ([[]] : List Record).length ([[]] : List Record).length,
              iterable := .listR ([[]] : List Record),
              length := ([[]] : List Record).length } :=
  connectionResolverDeferral (fun _ => none)
    (fun _ => some (.listR ([[]] : List Record)))
    (fun _ => .ok (utils.get_query articleModel ctx4))
    (fun _ => .error (.typeError "unused"))
    { first := none, last := none, after := none, before := none,
      sort := none, filterArg := [] }
    (utils.get_query articleModel ctx4) ([[]] : List Record) rfl rfl rfl

/-- C8: when the schema field declares required filter keys, the filtered
`resolve_connection` raises `Exception(missing_filters)` — whose payload is
exactly the set of declared-required keys absent from the caller's filter
argument — without delegating to pagination; when no declared-required key
is missing it delegates unchanged. -/
theorem requiredFiltersEnforced (info : Info)
    (gq : Args → Except PyError QueryT) (args : Args)
    (resolved0 : Option Resolved) (field : SchemaFieldInfo)
    (hf : info.queryField = some field) (hne : field.required ≠ []) :
    (∀ kk, kk ∈ missingFilters field.required (args.filterArg.map Prod.fst)
      ↔ kk ∈ field.required ∧ kk ∉ args.filterArg.map Prod.fst)
    ∧ (missingFilters field.required (args.filterArg.map Prod.fst) ≠ [] →
        SQLAlchemyFilteredConnectionField.resolve_connection info gq args
          resolved0
        = .error (.exceptionSet (missingFilters field.required
            (args.filterArg.map Prod.fst))))
    ∧ (missingFilters field.required (args.filterArg.map Prod.fst) = [] →
        SQLAlchemyFilteredConnectionField.resolve_connection info gq args
          resolved0
        = UnsortedSQLAlchemyConnectionField.resolve_connection gq args
            resolved0) := by
  have hie : field.required.isEmpty = false := by
    cases h : field.required with
    | nil => exact absurd h hne
    | cons a l => rfl
  refine ⟨?_, ?_, ?_⟩
  · intro kk
    simp [missingFilters, List.mem_dedup, List.mem_filter]
  · intro hm
    have hmie : (missingFilters field.required
        (args.filterArg.map Prod.fst)).isEmpty = false := by
      cases h : missingFilters field.required (args.filterArg.map Prod.fst) with
      | nil => exact absurd h hm
      | cons a l => rfl
    simp only [SQLAlchemyFilteredConnectionField.resolve_connection, hf]
    simp [hie, hmie]
  · intro hm
    simp only [SQLAlchemyFilteredConnectionField.resolve_connection, hf]
    simp [hie, hm]

/-- C8 witness: a field requiring `reporter_id` with a caller filter of only
`headline`: the missing-key set is exactly `{reporter_id}` and resolution
errors with it before any pagination. -/
theorem requiredFiltersEnforcedWitness :
    (∀ kk, kk ∈ missingFilters ["reporter_id"]
        ([("headline", FVal.scalar (Scalar.str "X"))].map Prod.fst)
      ↔ kk ∈ ["reporter_id"]
        ∧ kk ∉ [("headline", FVal.scalar (Scalar.str "X"))].map Prod.fst)
    ∧ (missingFilters ["reporter_id"]
        ([("headline", FVal.scalar (Scalar.str "X"))].map Prod.fst) ≠ [] →
        SQLAlchemyFilteredConnectionField.resolve_connection
          { queryField := some { required := ["reporter_id"] } }
          (fun _ => .error (.typeError "unused"))
          { first := none, last := none, after := none, before := none,
            sort := none,
            filterArg := [("headline", FVal.scalar (Scalar.str "X"))] }
          (some (.listR []))
        = .error (.exceptionSet (missingFilters ["reporter_id"]
            ([("headline", FVal.scalar (Scalar.str "X"))].map Prod.fst))))
    ∧ (missingFilters ["reporter_id"]
        ([("headline", FVal.scalar (Scalar.str "X"))].map Prod.fst) = [] →
        SQLAlchemyFilteredConnectionField.resolve_connection
          { queryField := some { required := ["reporter_id"] } }
          (fun _ => .error (.typeError "unused"))
          { first := none, last := none, after := none, before := none,
            sort := none,
            filterArg := [("headline", FVal.scalar (Scalar.str "X"))] }
          (some (.listR []))
        = UnsortedSQLAlchemyConnectionField.resolve_connection
            (fun _ => .error (.typeError "unused"))
            { first := none, last := none, after := none, before := none,
              sort := none,
              filterArg := [("headline", FVal.scalar (Scalar.str "X"))] }
            (some (.listR []))) :=
  requiredFiltersEnforced
    { queryField := some { required := ["reporter_id"] } }
    (fun _ => .error (.typeError "unused"))
    { first := none, last := none, after := none, before := none,
      sort := none,
      filterArg := [("headline", FVal.scalar (Scalar.str "X"))] }
    (some (.listR [])) { required := ["reporter_id"] } rfl (by decide)
